import Mathlib

/-!
# Verification of the user-account data-access layer (`app/crud/crud_user.py`)

Shallow embedding of `CRUDUser` and the pieces of its environment the spec
names.  The persisted store is a list of `User` records; every mutating
operation returns the new store together with the record the Python method
returns.  External collaborators that are not part of the repository slice
(the password-hashing primitive, the generic `CRUDBase` partial update, the
`UserCreate` schema and the ORM column defaults) are modelled from the spec
and marked as such in their doc comments.
-/

set_option autoImplicit false

namespace CrudUser

/-- A Python value as it can occur in an `update` change-set dict
(`Union[UserUpdate, Dict[str, Any]]`).  `vNone` is Python `None`. -/
inductive PyVal where
  | vNone
  | vStr (s : String)
  | vBool (b : Bool)
  | vNat (n : Nat)
  deriving DecidableEq, Repr

/-- Python truthiness for the values of `PyVal`, as used by
`if "password" in update_data and update_data["password"]`. -/
def PyVal.truthy : PyVal → Bool
  | .vNone => false
  | .vStr s => s ≠ ""
  | .vBool b => b
  | .vNat n => n ≠ 0

/-- The string carried by a `PyVal` (the hashing code path only ever reaches
this on a non-empty string value). -/
def PyVal.str : PyVal → String
  | .vStr s => s
  | _ => ""

/-- The `User` ORM entity (`app/models/user.py` is outside the slice; the
field list is the one the spec's data model gives).  Timestamps are modelled
as natural numbers. -/
structure User where
  id : Nat
  email : String
  hashed_password : String
  first_name : String
  last_name : String
  is_active : Bool
  is_admin : Bool
  is_verified : Bool
  verification_token : Option String
  verification_sent_at : Option Nat
  password_reset_token : Option String
  password_reset_at : Option Nat
  deriving DecidableEq, Repr

/-- The persisted table of users, in insertion order. -/
abbrev Store := List User

/-- Modelled from the spec: the persistence layer's `get(id)` primary-key
lookup used by every token-lifecycle operation (`CRUDBase.get` is not under
`src/`): first record with the given id, absent value on no match. -/
def getUser : Store → Nat → Option User
  | [], _ => none
  | u :: rest, id => if u.id == id then some u else getUser rest id

/-- `get_by_email`: case-sensitive exact lookup, absent value on no match
(crud_user.py line 13). -/
def get_by_email : Store → String → Option User
  | [], _ => none
  | u :: rest, email =>
      if u.email == email then some u else get_by_email rest email

/-- Modelled from the spec: committing a mutated fetched record back to the
store (`db.add`/`db.commit`/`db.refresh`), i.e. replacing the record with
the given primary key. -/
def setUser : Store → Nat → User → Store
  | [], _, _ => []
  | u :: rest, id, u' =>
      (if u.id == id then u' else u) :: setUser rest id u'

/-- Modelled from the spec: the one-way salted password-hashing primitive
`hash(plaintext) -> opaque_hash_string` (`app/core/security.py` is not under
`src/`).  Injective with hashes distinct from every plaintext, matching the
spec's one-way/verify contract. -/
def get_password_hash (p : String) : String :=
  "&2b&" ++ p

/-- Modelled from the spec: `verify(plaintext, opaque_hash_string) -> bool`,
true exactly when the hash is the hash of the plaintext. -/
def verify_password (plain hashed : String) : Bool :=
  hashed == get_password_hash plain

/-- Modelled from the spec: the `UserCreate` input schema
(`app/schemas/user.py` is not under `src/`).  Per the spec an `is_verified`
value may be explicitly provided, so it is carried as an optional field. -/
structure UserCreate where
  email : String
  password : String
  first_name : String
  last_name : String
  is_active : Bool
  is_admin : Bool
  is_verified : Option Bool
  deriving DecidableEq, Repr

/-- Modelled from the spec: the id generated by the persistence layer for a
newly inserted row. -/
def freshId (s : Store) : Nat :=
  s.foldl (fun a u => max a u.id) 0 + 1

/-- `create` (crud_user.py lines 16-28): builds the record from the six
fields it passes explicitly; all other columns take the model defaults
(`is_verified = false`, token/timestamp columns null, per the spec's data
model), then persists it. -/
def create (s : Store) (obj_in : UserCreate) : Store × User :=
  let db_obj : User :=
    { id := freshId s
      email := obj_in.email
      hashed_password := get_password_hash obj_in.password
      first_name := obj_in.first_name
      last_name := obj_in.last_name
      is_active := obj_in.is_active
      is_admin := obj_in.is_admin
      is_verified := false
      verification_token := none
      verification_sent_at := none
      password_reset_token := none
      password_reset_at := none }
  (s ++ [db_obj], db_obj)

/-- First value stored under key `k` in a change-set dict (`k in d` holds
iff this is `some`). -/
def lookupKey (k : String) : List (String × PyVal) → Option PyVal
  | [] => none
  | kv :: rest => if kv.1 == k then some kv.2 else lookupKey k rest

/-- `del d[k]` on a change-set dict. -/
def eraseKey (k : String) : List (String × PyVal) → List (String × PyVal)
  | [] => []
  | kv :: rest => if kv.1 == k then eraseKey k rest else kv :: eraseKey k rest

/-- `d[k] = v` on a change-set dict: replaces the value in place if the key
exists, else appends the entry. -/
def setKey (k : String) (v : PyVal) : List (String × PyVal) → List (String × PyVal)
  | [] => [(k, v)]
  | kv :: rest =>
      if kv.1 == k then (k, v) :: rest else kv :: setKey k v rest

/-- The password-stripping step of `update` (crud_user.py lines 38-41):
when the change-set holds a truthy `password`, that key is deleted and
`hashed_password` is set to its hash; otherwise the dict is untouched. -/
def prepare_update_data (update_data : List (String × PyVal)) :
    List (String × PyVal) :=
  match lookupKey "password" update_data with
  | some v =>
      if v.truthy then
        setKey "hashed_password" (PyVal.vStr (get_password_hash v.str))
          (eraseKey "password" update_data)
      else update_data
  | none => update_data

/-- Modelled from the spec: the generic `CRUDBase.update` partial update
(`app/crud/base.py` is not under `src/`): every entity field present in the
change-set (with a value of the column's type, `None` allowed on nullable
columns) is applied; absent fields retain their prior value; keys that are
not entity fields are ignored; the primary key is not an updatable field. -/
def applyStr (d : List (String × PyVal)) (k : String) (dflt : String) : String :=
  match lookupKey k d with
  | some (.vStr s) => s
  | _ => dflt

/-- Partial-update projection for a boolean column: see `applyStr`. -/
def applyBool (d : List (String × PyVal)) (k : String) (dflt : Bool) : Bool :=
  match lookupKey k d with
  | some (.vBool b) => b
  | _ => dflt

/-- Partial-update projection for a nullable string column: see `applyStr`. -/
def applyOptStr (d : List (String × PyVal)) (k : String) (dflt : Option String) :
    Option String :=
  match lookupKey k d with
  | some (.vStr s) => some s
  | some .vNone => none
  | _ => dflt

/-- Partial-update projection for a nullable timestamp column: see
`applyStr`. -/
def applyOptNat (d : List (String × PyVal)) (k : String) (dflt : Option Nat) :
    Option Nat :=
  match lookupKey k d with
  | some (.vNat n) => some n
  | some .vNone => none
  | _ => dflt

/-- Modelled from the spec: `CRUDBase.update` applied to one record — each
entity field present in the change-set is overwritten, the rest keep their
prior value. -/
def base_update (u : User) (d : List (String × PyVal)) : User :=
  { id := u.id
    email := applyStr d "email" u.email
    hashed_password := applyStr d "hashed_password" u.hashed_password
    first_name := applyStr d "first_name" u.first_name
    last_name := applyStr d "last_name" u.last_name
    is_active := applyBool d "is_active" u.is_active
    is_admin := applyBool d "is_admin" u.is_admin
    is_verified := applyBool d "is_verified" u.is_verified
    verification_token := applyOptStr d "verification_token" u.verification_token
    verification_sent_at := applyOptNat d "verification_sent_at" u.verification_sent_at
    password_reset_token := applyOptStr d "password_reset_token" u.password_reset_token
    password_reset_at := applyOptNat d "password_reset_at" u.password_reset_at }

/-- `update` (crud_user.py lines 30-43): strip/hash the password key, then
hand the change-set to the generic partial update and persist the result. -/
def update (s : Store) (db_obj : User) (update_data : List (String × PyVal)) :
    Store × User :=
  let u' := base_update db_obj (prepare_update_data update_data)
  (setUser s db_obj.id u', u')

/-- `authenticate` (crud_user.py lines 45-51): email lookup, then password
verification; both failure modes return the same absent value. -/
def authenticate (s : Store) (email password : String) : Option User :=
  match get_by_email s email with
  | none => none
  | some user =>
      if verify_password password user.hashed_password then some user else none

/-- `verify_email` (crud_user.py lines 59-67): on a present id, set
`is_verified` and clear `verification_token` in one committed mutation; on
an absent id, return `None` without writing. -/
def verify_email (s : Store) (user_id : Nat) : Store × Option User :=
  match getUser s user_id with
  | none => (s, none)
  | some user =>
      let user' := { user with is_verified := true, verification_token := none }
      (setUser s user_id user', some user')

/-- `set_verification_token` (crud_user.py lines 69-79): store the supplied
token and stamp `verification_sent_at` with the current time (passed in
explicitly, standing for `datetime.now(timezone.utc)`). -/
def set_verification_token (s : Store) (user_id : Nat) (token : String)
    (now : Nat) : Store × Option User :=
  match getUser s user_id with
  | none => (s, none)
  | some user =>
      let user' := { user with
        verification_token := some token
        verification_sent_at := some now }
      (setUser s user_id user', some user')

/-- `set_password_reset_token` (crud_user.py lines 81-91): store the reset
token and stamp `password_reset_at` with the current time. -/
def set_password_reset_token (s : Store) (user_id : Nat) (token : String)
    (now : Nat) : Store × Option User :=
  match getUser s user_id with
  | none => (s, none)
  | some user =>
      let user' := { user with
        password_reset_token := some token
        password_reset_at := some now }
      (setUser s user_id user', some user')

/-- `reset_password` (crud_user.py lines 93-105): hash the new password into
`hashed_password` and null both reset columns, in one committed mutation. -/
def reset_password (s : Store) (user_id : Nat) (new_password : String) :
    Store × Option User :=
  match getUser s user_id with
  | none => (s, none)
  | some user =>
      let user' := { user with
        hashed_password := get_password_hash new_password
        password_reset_token := none
        password_reset_at := none }
      (setUser s user_id user', some user')

/-- `is_active` projection (crud_user.py line 53). -/
def is_active (u : User) : Bool := u.is_active

/-- `is_admin` projection (crud_user.py line 56). -/
def is_admin (u : User) : Bool := u.is_admin

/-- Well-formedness the persistence layer guarantees (spec data model:
unique id, unique email): pairwise-distinct ids and emails. -/
def storeWF (s : Store) : Prop :=
  s.Pairwise (fun a b => a.id ≠ b.id ∧ a.email ≠ b.email)

instance (s : Store) : Decidable (storeWF s) :=
  List.instDecidablePairwise s

/-- Spec invariant: `password_reset_token`/`password_reset_at` are either
both null or both set. -/
def resetPairConsistent (u : User) : Prop :=
  u.password_reset_token = none ↔ u.password_reset_at = none

instance (u : User) : Decidable (resetPairConsistent u) := by
  unfold resetPairConsistent; infer_instance

/-- Spec invariant: a non-null `verification_token` implies the account is
not yet verified. -/
def tokenImpliesUnverified (u : User) : Prop :=
  u.verification_token ≠ none → u.is_verified = false

instance (u : User) : Decidable (tokenImpliesUnverified u) := by
  unfold tokenImpliesUnverified; infer_instance

/-! ## Helper lemmas -/

theorem get_password_hash_injective {a b : String}
    (h : get_password_hash a = get_password_hash b) : a = b := by
  have h2 := congrArg String.data h
  simp only [get_password_hash, String.data_append] at h2
  exact String.ext (List.append_cancel_left h2)

theorem get_password_hash_ne (p : String) : get_password_hash p ≠ p := by
  intro h
  have := congrArg String.length h
  simp [get_password_hash, String.length_append] at this
  exact absurd this (by decide)

theorem verify_password_hash_self (p : String) :
    verify_password p (get_password_hash p) = true := by
  simp [verify_password]

theorem verify_password_hash_ne {p q : String} (h : p ≠ q) :
    verify_password p (get_password_hash q) = false := by
  simp only [verify_password, beq_eq_false_iff_ne, ne_eq]
  intro h2
  exact h (get_password_hash_injective h2.symm)

theorem lookupKey_eraseKey_self (k : String) (d : List (String × PyVal)) :
    lookupKey k (eraseKey k d) = none := by
  induction d with
  | nil => rfl
  | cons kv rest ih =>
      by_cases h : (kv.1 == k) = true
      · simpa [eraseKey, h] using ih
      · simp only [Bool.not_eq_true] at h
        simp [eraseKey, h, lookupKey, ih]

theorem lookupKey_setKey_self (k : String) (v : PyVal)
    (d : List (String × PyVal)) : lookupKey k (setKey k v d) = some v := by
  induction d with
  | nil => simp [setKey, lookupKey]
  | cons kv rest ih =>
      by_cases h : (kv.1 == k) = true
      · simp [setKey, h, lookupKey]
      · simp only [Bool.not_eq_true] at h
        simp [setKey, h, lookupKey, ih]

theorem lookupKey_setKey_ne {k k' : String} (v : PyVal)
    (d : List (String × PyVal)) (h : k ≠ k') :
    lookupKey k (setKey k' v d) = lookupKey k d := by
  have hkk : (k' == k) = false := beq_eq_false_iff_ne.2 (Ne.symm h)
  induction d with
  | nil => simp [setKey, lookupKey, hkk]
  | cons kv rest ih =>
      by_cases hk : (kv.1 == k') = true
      · have hkv : (kv.1 == k) = false := by
          refine beq_eq_false_iff_ne.2 ?_
          intro hc
          exact h (hc ▸ eq_of_beq hk)
        simp [setKey, hk, lookupKey, hkk, hkv]
      · simp only [Bool.not_eq_true] at hk
        simp [setKey, hk, lookupKey, ih]

theorem lookupKey_eraseKey_ne {k k' : String} (d : List (String × PyVal))
    (h : k ≠ k') : lookupKey k (eraseKey k' d) = lookupKey k d := by
  induction d with
  | nil => rfl
  | cons kv rest ih =>
      by_cases hk : (kv.1 == k') = true
      · have hkv : (kv.1 == k) = false := by
          refine beq_eq_false_iff_ne.2 ?_
          intro hc
          exact h (hc ▸ eq_of_beq hk)
        simp [eraseKey, hk, lookupKey, hkv, ih]
      · simp only [Bool.not_eq_true] at hk
        simp [eraseKey, hk, lookupKey, ih]

/-- Keys other than `password` and `hashed_password` are untouched by the
password-stripping step. -/
theorem lookupKey_prepare_update_data {k : String}
    (d : List (String × PyVal)) (h1 : k ≠ "password")
    (h2 : k ≠ "hashed_password") :
    lookupKey k (prepare_update_data d) = lookupKey k d := by
  unfold prepare_update_data
  cases hp : lookupKey "password" d with
  | none => rfl
  | some v =>
      by_cases ht : v.truthy
      · simp only [ht, if_true]
        rw [lookupKey_setKey_ne _ _ h2, lookupKey_eraseKey_ne _ h1]
      · simp [ht]

theorem applyOptStr_none {d : List (String × PyVal)} {k : String}
    {dflt : Option String} (h : lookupKey k d = none) :
    applyOptStr d k dflt = dflt := by
  simp [applyOptStr, h]

theorem applyOptNat_none {d : List (String × PyVal)} {k : String}
    {dflt : Option Nat} (h : lookupKey k d = none) :
    applyOptNat d k dflt = dflt := by
  simp [applyOptNat, h]

theorem get_by_email_mem {s : Store} {email : String} {u : User}
    (h : get_by_email s email = some u) : u ∈ s := by
  induction s with
  | nil => simp [get_by_email] at h
  | cons a rest ih =>
      by_cases ha : (a.email == email) = true
      · simp only [get_by_email, ha, if_true, Option.some.injEq] at h
        exact h ▸ List.mem_cons_self a rest
      · simp only [Bool.not_eq_true] at ha
        simp only [get_by_email, ha, Bool.false_eq_true, if_false] at h
        exact List.mem_cons_of_mem a (ih h)

theorem getUser_mem {s : Store} {id : Nat} {u : User}
    (h : getUser s id = some u) : u ∈ s := by
  induction s with
  | nil => simp [getUser] at h
  | cons a rest ih =>
      by_cases ha : (a.id == id) = true
      · simp only [getUser, ha, if_true, Option.some.injEq] at h
        exact h ▸ List.mem_cons_self a rest
      · simp only [Bool.not_eq_true] at ha
        simp only [getUser, ha, Bool.false_eq_true, if_false] at h
        exact List.mem_cons_of_mem a (ih h)

theorem getUser_id {s : Store} {id : Nat} {u : User}
    (h : getUser s id = some u) : u.id = id := by
  induction s with
  | nil => simp [getUser] at h
  | cons a rest ih =>
      by_cases ha : (a.id == id) = true
      · simp only [getUser, ha, if_true, Option.some.injEq] at h
        exact h ▸ eq_of_beq ha
      · simp only [Bool.not_eq_true] at ha
        simp only [getUser, ha, Bool.false_eq_true, if_false] at h
        exact ih h

theorem mem_setUser {s : Store} {id : Nat} {u' v : User}
    (hv : v ∈ setUser s id u') : v = u' ∨ v ∈ s := by
  induction s with
  | nil => simp [setUser] at hv
  | cons a rest ih =>
      simp only [setUser, List.mem_cons] at hv
      rcases hv with hv | hv
      · by_cases ha : (a.id == id) = true
        · simp only [ha, if_true] at hv
          exact Or.inl hv
        · simp only [Bool.not_eq_true] at ha
          simp only [ha, Bool.false_eq_true, if_false] at hv
          exact Or.inr (List.mem_cons.2 (Or.inl hv))
      · rcases ih hv with h | h
        · exact Or.inl h
        · exact Or.inr (List.mem_cons.2 (Or.inr h))

theorem getUser_setUser {s : Store} {id : Nat} {u u' : User}
    (h : getUser s id = some u) (hid : u'.id = id) :
    getUser (setUser s id u') id = some u' := by
  induction s with
  | nil => simp [getUser] at h
  | cons a rest ih =>
      by_cases ha : (a.id == id) = true
      · simp [setUser, getUser, ha, hid]
      · simp only [Bool.not_eq_true] at ha
        simp only [getUser, ha, Bool.false_eq_true, if_false] at h
        simp [setUser, getUser, ha, ih h]

theorem get_by_email_setUser {s : Store} {id : Nat} {u u' : User}
    (hwf : storeWF s) (h : getUser s id = some u)
    (hem : u'.email = u.email) :
    get_by_email (setUser s id u') u.email = some u' := by
  induction s with
  | nil => simp [getUser] at h
  | cons a rest ih =>
      by_cases ha : (a.id == id) = true
      · simp only [getUser, ha, if_true, Option.some.injEq] at h
        subst h
        simp [setUser, get_by_email, ha, hem]
      · simp only [Bool.not_eq_true] at ha
        simp only [getUser, ha, Bool.false_eq_true, if_false] at h
        have humem : u ∈ rest := getUser_mem h
        have hane : a.email ≠ u.email :=
          ((List.pairwise_cons.1 hwf).1 u humem).2
        have hbe : (a.email == u.email) = false :=
          beq_eq_false_iff_ne.2 hane
        simp [setUser, get_by_email, ha, hbe,
          ih (List.pairwise_cons.1 hwf).2 h]

/-! ## Concrete fixtures used by witnesses and counterexamples -/

/-- A concrete stored user whose password is `pw1`. -/
def u0 : User :=
  { id := 1
    email := "ada@example.com"
    hashed_password := get_password_hash "pw1"
    first_name := "Ada"
    last_name := "Lovelace"
    is_active := true
    is_admin := false
    is_verified := false
    verification_token := none
    verification_sent_at := none
    password_reset_token := none
    password_reset_at := none }

/-- A concrete one-user store. -/
def s0 : Store := [u0]

/-- A concrete create input that does not provide `is_verified`. -/
def i0 : UserCreate :=
  { email := "new@example.com"
    password := "secret1"
    first_name := "Nu"
    last_name := "User"
    is_active := true
    is_admin := false
    is_verified := none }

/-- A concrete create input that explicitly provides `is_verified = true`. -/
def iV : UserCreate :=
  { i0 with is_verified := some true }

/-- A concrete stored user with a pending verification token and issuance
timestamp. -/
def uPend : User :=
  { u0 with verification_token := some "vt", verification_sent_at := some 3 }

/-- A change-set whose `password` value is the empty string: Python treats
it as falsy, so the stripping branch of `update` is skipped. -/
def dFalsyPw : List (String × PyVal) := [(("password" : String), PyVal.vStr "")]

/-- A change-set carrying a non-empty plaintext password. -/
def dRealPw : List (String × PyVal) :=
  [(("password" : String), PyVal.vStr "s3cret")]

/-- A change-set supplying only `password_reset_token`, without the paired
`password_reset_at`. -/
def dHalfReset : List (String × PyVal) :=
  [(("password_reset_token" : String), PyVal.vStr "rt")]

/-- A change-set touching only a profile field. -/
def dProfile : List (String × PyVal) :=
  [(("first_name" : String), PyVal.vStr "Zz")]

/-- The record reached from the empty store by `create i0`, then
`verify_email`, then `set_verification_token` with token `t2` at time 7. -/
def uBadVerif : User :=
  { id := 1
    email := "new@example.com"
    hashed_password := get_password_hash "secret1"
    first_name := "Nu"
    last_name := "User"
    is_active := true
    is_admin := false
    is_verified := true
    verification_token := some "t2"
    verification_sent_at := some 7
    password_reset_token := none
    password_reset_at := none }

/-! ## Claims -/

/-- C1 (counterexample): a change-set containing `password: ""` contains a
`password` field, yet `update`'s stripping step leaves the key in the
applied field list handed to the generic partial update, and computes no
`hashed_password` — the guard `update_data["password"]` is a truthiness
test, not a presence test (crud_user.py line 38). -/
theorem C1_counterexample :
    lookupKey "password" dFalsyPw = some (PyVal.vStr "")
    ∧ ¬ lookupKey "password" (prepare_update_data dFalsyPw) = none
    ∧ lookupKey "hashed_password" (prepare_update_data dFalsyPw) = none := by
  decide

/-- C1 (amended): for every change-set containing a `password` field with a
truthy value, `update` removes the `password` key from the applied field
list, adds `hashed_password` freshly computed from that password, and the
persisted record's hash is that hash, verifying against the plaintext. -/
theorem update_strips_truthy_password (s : Store) (db_obj : User)
    (d : List (String × PyVal)) (v : PyVal)
    (hp : lookupKey "password" d = some v) (ht : v.truthy = true) :
    lookupKey "password" (prepare_update_data d) = none
    ∧ lookupKey "hashed_password" (prepare_update_data d)
        = some (PyVal.vStr (get_password_hash v.str))
    ∧ (update s db_obj d).2.hashed_password = get_password_hash v.str
    ∧ verify_password v.str (update s db_obj d).2.hashed_password = true := by
  have h1 : prepare_update_data d
      = setKey "hashed_password" (PyVal.vStr (get_password_hash v.str))
          (eraseKey "password" d) := by
    unfold prepare_update_data
    rw [hp]
    simp [ht]
  have h3 : (update s db_obj d).2.hashed_password = get_password_hash v.str := by
    show (base_update db_obj (prepare_update_data d)).hashed_password = _
    simp [base_update, applyStr, h1, lookupKey_setKey_self]
  refine ⟨?_, ?_, h3, ?_⟩
  · rw [h1, lookupKey_setKey_ne _ _ (by decide), lookupKey_eraseKey_self]
  · rw [h1, lookupKey_setKey_self]
  · rw [h3]
    exact verify_password_hash_self v.str

/-- C1 (witness): the amended theorem applied to a concrete change-set
containing `password: "s3cret"`. -/
theorem update_strips_truthy_password_witness :
    lookupKey "password" (prepare_update_data dRealPw) = none
    ∧ lookupKey "hashed_password" (prepare_update_data dRealPw)
        = some (PyVal.vStr (get_password_hash "s3cret"))
    ∧ (update s0 u0 dRealPw).2.hashed_password = get_password_hash "s3cret"
    ∧ verify_password "s3cret" (update s0 u0 dRealPw).2.hashed_password = true :=
  update_strips_truthy_password s0 u0 dRealPw (PyVal.vStr "s3cret")
    (by decide) (by decide)

/-- C2: for every create input, the stored `hashed_password` is the one-way
hash of the input plaintext password, differs from the plaintext, and
verifies against it. -/
theorem create_hashes_password (s : Store) (i : UserCreate) :
    (create s i).2.hashed_password = get_password_hash i.password
    ∧ (create s i).2.hashed_password ≠ i.password
    ∧ verify_password i.password (create s i).2.hashed_password = true := by
  refine ⟨rfl, ?_, ?_⟩
  · show get_password_hash i.password ≠ i.password
    exact get_password_hash_ne i.password
  · show verify_password i.password (get_password_hash i.password) = true
    exact verify_password_hash_self i.password

/-- C2 (witness): the create theorem applied to a concrete input. -/
theorem create_hashes_password_witness :
    (create s0 i0).2.hashed_password = get_password_hash "secret1"
    ∧ (create s0 i0).2.hashed_password ≠ "secret1"
    ∧ verify_password "secret1" (create s0 i0).2.hashed_password = true :=
  create_hashes_password s0 i0

/-- C3: `authenticate` returns the absent value both for an unknown email
and for a known email with a non-verifying password — literally the same
`none`, indistinguishable to the caller — and returns the full stored
record when the password verifies. -/
theorem authenticate_absent_or_success (s : Store) (email password : String)
    (u : User) :
    (get_by_email s email = none → authenticate s email password = none)
    ∧ (get_by_email s email = some u →
        verify_password password u.hashed_password = false →
        authenticate s email password = none)
    ∧ (get_by_email s email = some u →
        verify_password password u.hashed_password = true →
        authenticate s email password = some u) := by
  refine ⟨?_, ?_, ?_⟩
  · intro h
    simp [authenticate, h]
  · intro h hv
    simp [authenticate, h, hv]
  · intro h hv
    simp [authenticate, h, hv]

/-- C3 (witness): all three branches of the authentication theorem at
concrete inputs on the one-user store. -/
theorem authenticate_absent_or_success_witness :
    authenticate s0 "absent@example.com" "pw1" = none
    ∧ authenticate s0 "ada@example.com" "wrong" = none
    ∧ authenticate s0 "ada@example.com" "pw1" = some u0 :=
  ⟨(authenticate_absent_or_success s0 "absent@example.com" "pw1" u0).1
      (by decide),
   (authenticate_absent_or_success s0 "ada@example.com" "wrong" u0).2.1
      (by decide) (by decide),
   (authenticate_absent_or_success s0 "ada@example.com" "pw1" u0).2.2
      (by decide) (by decide)⟩

/-- C4: for every stored user id, `verify_email` returns a record with
`is_verified = true` and `verification_token = null`, and re-fetching the
id from the store produced by the single committed transition shows exactly
that record — both field changes land together. -/
theorem verify_email_verifies (s : Store) (id : Nat) (u : User)
    (h : getUser s id = some u) :
    ∃ u', (verify_email s id).2 = some u'
      ∧ getUser (verify_email s id).1 id = some u'
      ∧ u'.is_verified = true
      ∧ u'.verification_token = none := by
  refine ⟨{ u with is_verified := true, verification_token := none },
    ?_, ?_, rfl, rfl⟩
  · simp [verify_email, h]
  · have hs1 : (verify_email s id).1
        = setUser s id
            { u with
              is_verified := true
              verification_token := none } := by
      simp [verify_email, h]
    have hid : u.id = id := getUser_id h
    rw [hs1]
    exact getUser_setUser h hid

/-- C4 (witness): the verification theorem on the concrete one-user
store. -/
theorem verify_email_verifies_witness :
    ∃ u', (verify_email s0 1).2 = some u'
      ∧ getUser (verify_email s0 1).1 1 = some u'
      ∧ u'.is_verified = true
      ∧ u'.verification_token = none :=
  verify_email_verifies s0 1 u0 (by decide)

/-- C5: for every stored user in a well-formed store, `reset_password`
stores a fresh hash of the new password and nulls both reset columns;
afterwards authentication with the new password returns the updated record
and authentication with any different old password returns the absent
value. -/
theorem reset_password_full (s : Store) (id : Nat) (u : User)
    (newp oldp : String) (hwf : storeWF s) (h : getUser s id = some u)
    (hne : oldp ≠ newp) :
    ∃ u', (reset_password s id newp).2 = some u'
      ∧ u'.hashed_password = get_password_hash newp
      ∧ u'.password_reset_token = none
      ∧ u'.password_reset_at = none
      ∧ authenticate (reset_password s id newp).1 u.email newp = some u'
      ∧ authenticate (reset_password s id newp).1 u.email oldp = none := by
  refine ⟨{ u with
      hashed_password := get_password_hash newp
      password_reset_token := none
      password_reset_at := none },
    ?_, rfl, rfl, rfl, ?_, ?_⟩
  · simp [reset_password, h]
  · have hs1 : (reset_password s id newp).1
        = setUser s id
            { u with
              hashed_password := get_password_hash newp
              password_reset_token := none
              password_reset_at := none } := by
      simp [reset_password, h]
    have hem : ({ u with
        hashed_password := get_password_hash newp
        password_reset_token := none
        password_reset_at := none } : User).email = u.email := rfl
    rw [hs1]
    simp [authenticate, get_by_email_setUser hwf h hem,
      verify_password_hash_self]
  · have hs1 : (reset_password s id newp).1
        = setUser s id
            { u with
              hashed_password := get_password_hash newp
              password_reset_token := none
              password_reset_at := none } := by
      simp [reset_password, h]
    have hem : ({ u with
        hashed_password := get_password_hash newp
        password_reset_token := none
        password_reset_at := none } : User).email = u.email := rfl
    rw [hs1]
    simp [authenticate, get_by_email_setUser hwf h hem,
      verify_password_hash_ne hne]

/-- C5 (witness): the reset theorem on the concrete one-user store, with
old password `pw1` and new password `npw2`. -/
theorem reset_password_full_witness :
    ∃ u', (reset_password s0 1 "npw2").2 = some u'
      ∧ u'.hashed_password = get_password_hash "npw2"
      ∧ u'.password_reset_token = none
      ∧ u'.password_reset_at = none
      ∧ authenticate (reset_password s0 1 "npw2").1 u0.email "npw2" = some u'
      ∧ authenticate (reset_password s0 1 "npw2").1 u0.email "pw1" = none :=
  reset_password_full s0 1 u0 "npw2" "pw1" (by decide) (by decide) (by decide)

/-- C6: on an id absent from the store, each of `verify_email`,
`set_verification_token`, `set_password_reset_token` and `reset_password`
returns the absent value and leaves the store untouched. -/
theorem absent_id_is_noop (s : Store) (id now : Nat) (token newp : String)
    (h : getUser s id = none) :
    verify_email s id = (s, none)
    ∧ set_verification_token s id token now = (s, none)
    ∧ set_password_reset_token s id token now = (s, none)
    ∧ reset_password s id newp = (s, none) := by
  refine ⟨?_, ?_, ?_, ?_⟩ <;>
    simp [verify_email, set_verification_token, set_password_reset_token,
      reset_password, h]

/-- C6 (witness): the no-op theorem at the absent id 99 of the concrete
store. -/
theorem absent_id_is_noop_witness :
    verify_email s0 99 = (s0, none)
    ∧ set_verification_token s0 99 "tok" 5 = (s0, none)
    ∧ set_password_reset_token s0 99 "tok" 5 = (s0, none)
    ∧ reset_password s0 99 "npw" = (s0, none) :=
  absent_id_is_noop s0 99 5 "tok" "npw" (by decide)

/-- C10: `verify_email` on a stored id changes only `is_verified` and
`verification_token`; every other field of the record — including
`verification_sent_at` — keeps its prior value. -/
theorem verify_email_frame (s : Store) (id : Nat) (u : User)
    (h : getUser s id = some u) :
    ∃ u', (verify_email s id).2 = some u'
      ∧ u'.id = u.id
      ∧ u'.email = u.email
      ∧ u'.hashed_password = u.hashed_password
      ∧ u'.first_name = u.first_name
      ∧ u'.last_name = u.last_name
      ∧ u'.is_active = u.is_active
      ∧ u'.is_admin = u.is_admin
      ∧ u'.verification_sent_at = u.verification_sent_at
      ∧ u'.password_reset_token = u.password_reset_token
      ∧ u'.password_reset_at = u.password_reset_at
      ∧ u'.is_verified = true
      ∧ u'.verification_token = none := by
  refine ⟨{ u with is_verified := true, verification_token := none },
    ?_, rfl, rfl, rfl, rfl, rfl, rfl, rfl, rfl, rfl, rfl, rfl, rfl⟩
  simp [verify_email, h]

/-- C7 (counterexample): the both-null-or-both-set pairing of
`password_reset_token`/`password_reset_at` holds of the stored user but is
broken by `update` with a change-set that supplies only
`password_reset_token`: the generic partial update applies exactly the
fields present, so the token is set while the timestamp stays null. -/
theorem C7_counterexample :
    resetPairConsistent u0
    ∧ ¬ resetPairConsistent (update s0 u0 dHalfReset).2 := by
  decide

/-- C7 (amended): the reset-pair invariant is preserved by `create`,
`authenticate`, `verify_email`, `set_verification_token`,
`set_password_reset_token` and `reset_password`, and by `update` whenever
the change-set mentions neither `password_reset_token` nor
`password_reset_at`; a change-set supplying exactly one of the two can
break it. -/
theorem reset_pair_invariant (s : Store) (i : UserCreate) (id now : Nat)
    (tok newp email pw : String) (db_obj : User)
    (d : List (String × PyVal))
    (hs : ∀ v ∈ s, resetPairConsistent v)
    (hobj : resetPairConsistent db_obj)
    (hd1 : lookupKey "password_reset_token" d = none)
    (hd2 : lookupKey "password_reset_at" d = none) :
    (∀ v ∈ (create s i).1, resetPairConsistent v)
    ∧ (∀ v, authenticate s email pw = some v → resetPairConsistent v)
    ∧ (∀ v ∈ (verify_email s id).1, resetPairConsistent v)
    ∧ (∀ v ∈ (set_verification_token s id tok now).1, resetPairConsistent v)
    ∧ (∀ v ∈ (set_password_reset_token s id tok now).1,
        resetPairConsistent v)
    ∧ (∀ v ∈ (reset_password s id newp).1, resetPairConsistent v)
    ∧ (∀ v ∈ (update s db_obj d).1, resetPairConsistent v)
    ∧ resetPairConsistent (update s db_obj d).2 := by
  have hupd : resetPairConsistent
      (base_update db_obj (prepare_update_data d)) := by
    have hp1 : lookupKey "password_reset_token" (prepare_update_data d)
        = none := by
      rw [lookupKey_prepare_update_data d (by decide) (by decide)]
      exact hd1
    have hp2 : lookupKey "password_reset_at" (prepare_update_data d)
        = none := by
      rw [lookupKey_prepare_update_data d (by decide) (by decide)]
      exact hd2
    simp only [resetPairConsistent, base_update]
    rw [applyOptStr_none hp1, applyOptNat_none hp2]
    exact hobj
  refine ⟨?_, ?_, ?_, ?_, ?_, ?_, ?_, hupd⟩
  · intro v hv
    rcases List.mem_append.1 hv with hv | hv
    · exact hs v hv
    · rcases List.mem_singleton.1 hv with rfl
      simp [resetPairConsistent]
  · intro v hv
    unfold authenticate at hv
    cases he : get_by_email s email with
    | none => rw [he] at hv; cases hv
    | some w =>
        rw [he] at hv
        by_cases hw : verify_password pw w.hashed_password = true
        · simp only [hw, if_true, Option.some.injEq] at hv
          exact hv ▸ hs w (get_by_email_mem he)
        · simp only [Bool.not_eq_true] at hw
          simp [hw] at hv
  · intro v hv
    cases hg : getUser s id with
    | none => simp only [verify_email, hg] at hv; exact hs v hv
    | some u =>
        simp only [verify_email, hg] at hv
        rcases mem_setUser hv with rfl | hv
        · exact hs u (getUser_mem hg)
        · exact hs v hv
  · intro v hv
    cases hg : getUser s id with
    | none =>
        simp only [set_verification_token, hg] at hv
        exact hs v hv
    | some u =>
        simp only [set_verification_token, hg] at hv
        rcases mem_setUser hv with rfl | hv
        · exact hs u (getUser_mem hg)
        · exact hs v hv
  · intro v hv
    cases hg : getUser s id with
    | none =>
        simp only [set_password_reset_token, hg] at hv
        exact hs v hv
    | some u =>
        simp only [set_password_reset_token, hg] at hv
        rcases mem_setUser hv with rfl | hv
        · simp [resetPairConsistent]
        · exact hs v hv
  · intro v hv
    cases hg : getUser s id with
    | none => simp only [reset_password, hg] at hv; exact hs v hv
    | some u =>
        simp only [reset_password, hg] at hv
        rcases mem_setUser hv with rfl | hv
        · simp [resetPairConsistent]
        · exact hs v hv
  · intro v hv
    rcases mem_setUser hv with rfl | hv
    · exact hupd
    · exact hs v hv

/-- C7 (witness): the amended invariant theorem projected to the updated
record for a concrete profile-only change-set. -/
theorem reset_pair_invariant_witness :
    resetPairConsistent (update s0 u0 dProfile).2 :=
  (reset_pair_invariant s0 i0 1 9 "tk" "npw" "ada@example.com" "pw1" u0
    dProfile (by decide) (by decide) (by decide) (by decide)).2.2.2.2.2.2.2

/-- C8 (counterexample): the record reached from the empty store by
`create`, then `verify_email`, then `set_verification_token` carries a
non-null `verification_token` together with `is_verified = true`:
`set_verification_token` stores the token without resetting the flag, so
the implication invariant fails on a reachable record. -/
theorem C8_counterexample :
    (set_verification_token
        (verify_email (create ([] : Store) i0).1 1).1 1 "t2" 7).2
      = some uBadVerif
    ∧ ¬ tokenImpliesUnverified uBadVerif := by
  decide

/-- C8 (amended): records produced by `create` and by `verify_email`
satisfy the token-implies-unverified invariant, and `verify_email` sets the
flag and clears the token in the same transition; `set_verification_token`
keeps the invariant only when the target user is still unverified — on an
already-verified user it produces a violating record. -/
theorem verification_invariant_guarded (s : Store) (id now : Nat)
    (tok : String) (i : UserCreate) (u : User)
    (h : getUser s id = some u) (hunv : u.is_verified = false) :
    tokenImpliesUnverified (create s i).2
    ∧ (∀ v, (verify_email s id).2 = some v →
        v.is_verified = true ∧ v.verification_token = none)
    ∧ (∀ v, (set_verification_token s id tok now).2 = some v →
        tokenImpliesUnverified v) := by
  refine ⟨?_, ?_, ?_⟩
  · intro hv
    exact absurd rfl hv
  · intro v hv
    have hv2 : ({ u with
        is_verified := true
        verification_token := none } : User) = v := by
      simpa [verify_email, h] using hv
    subst hv2
    exact ⟨rfl, rfl⟩
  · intro v hv
    have hv2 : ({ u with
        verification_token := some tok
        verification_sent_at := some now } : User) = v := by
      simpa [set_verification_token, h] using hv
    subst hv2
    exact fun _ => hunv

/-- C8 (witness): the guarded invariant theorem on the concrete one-user
store, whose user is unverified. -/
theorem verification_invariant_guarded_witness :
    tokenImpliesUnverified (create s0 i0).2
    ∧ (∀ v, (verify_email s0 1).2 = some v →
        v.is_verified = true ∧ v.verification_token = none)
    ∧ (∀ v, (set_verification_token s0 1 "w" 9).2 = some v →
        tokenImpliesUnverified v) :=
  verification_invariant_guarded s0 1 9 "w" i0 u0 (by decide) (by decide)

/-- C9 (counterexample): a create input explicitly providing
`is_verified = true` yields a created record with `is_verified = false`:
`create` hands only email, password hash, the two names, `is_active` and
`is_admin` to the new record and ignores a provided `is_verified`. -/
theorem C9_counterexample :
    iV.is_verified = some true ∧ (create s0 iV).2.is_verified = false := by
  decide

/-- C9 (amended): the created record's `is_active` and `is_admin` equal the
values supplied in the input, and `is_verified` is false regardless of any
explicitly provided value. -/
theorem create_status_flags (s : Store) (i : UserCreate) :
    (create s i).2.is_active = i.is_active
    ∧ (create s i).2.is_admin = i.is_admin
    ∧ (create s i).2.is_verified = false :=
  ⟨rfl, rfl, rfl⟩

/-- C10 (witness): the frame theorem on a concrete store whose user has a
pending verification token and timestamp. -/
theorem verify_email_frame_witness :
    ∃ u', (verify_email [uPend] 1).2 = some u'
      ∧ u'.id = uPend.id
      ∧ u'.email = uPend.email
      ∧ u'.hashed_password = uPend.hashed_password
      ∧ u'.first_name = uPend.first_name
      ∧ u'.last_name = uPend.last_name
      ∧ u'.is_active = uPend.is_active
      ∧ u'.is_admin = uPend.is_admin
      ∧ u'.verification_sent_at = uPend.verification_sent_at
      ∧ u'.password_reset_token = uPend.password_reset_token
      ∧ u'.password_reset_at = uPend.password_reset_at
      ∧ u'.is_verified = true
      ∧ u'.verification_token = none :=
  verify_email_frame [uPend] 1 uPend (by decide)

end CrudUser
